import Mathlib

/-!
Verification of the validation module `packages/snaps-utils/src/types.ts`.

The module declares superstruct validators for a snap's `package.json`
metadata (a semver version string, an npm-style package name, and a
package-metadata record composed from them), a predicate and an assertion
over that record, and string-valued enums for file names and snap-id
prefixes.  We embed the validators as boolean functions over a JSON-like
value type and prove the specified properties about them.
-/

/-- A JSON-like JavaScript value: the universe over which the superstruct
validators of `types.ts` operate.  JavaScript `undefined` is represented by
the absence of a key in an object (the values reaching these validators are
parsed JSON documents, which contain no `undefined`). -/
inductive Value where
  | str  : String → Value
  | num  : Int → Value
  | bool : Bool → Value
  | null : Value
  | arr  : List Value → Value
  | obj  : List (String × Value) → Value

/-- JavaScript property lookup `fields[key]` on a plain object, where the
object's own enumerable string keys are listed in order.  A JavaScript object
has no duplicate keys; on a list with duplicates this returns the first
binding. -/
def getField : List (String × Value) → String → Option Value
  | [], _ => none
  | (k, v) :: rest, key => if k = key then some v else getField rest key

/-! ### The semver validator

`VersionStruct` refines `string()` by `validSemver(value) !== null`, where
`validSemver` is the `valid` function of the external `semver` npm package.
That package is a dependency, not part of the repository's sources, and the
specification treats it as a black box satisfying the semver 2.0 grammar, so
we model it from the grammar. -/

/-- a decimal digit, `0-9` in the semver grammar -/
def isSemverDigit (c : Char) : Bool := ('0' ≤ c && c ≤ '9')

/-- a letter, `A-Za-z` in the semver grammar -/
def isSemverLetter (c : Char) : Bool :=
  ('a' ≤ c && c ≤ 'z') || ('A' ≤ c && c ≤ 'Z')

/-- an identifier character of the semver grammar: digit, letter or hyphen -/
def isSemverIdentChar (c : Char) : Bool :=
  isSemverDigit c || isSemverLetter c || c == '-'

/-- semver numeric identifier: `0`, or digits without a leading zero -/
def numericIdent : List Char → Bool
  | [] => false
  | ['0'] => true
  | '0' :: _ => false
  | c :: rest => isSemverDigit c && rest.all isSemverDigit

/-- semver alphanumeric identifier: a non-empty run of identifier characters
containing at least one non-digit -/
def alphanumericIdent (cs : List Char) : Bool :=
  !cs.isEmpty && cs.all isSemverIdentChar && cs.any (fun c => !isSemverDigit c)

/-- semver pre-release identifier: alphanumeric or numeric -/
def preReleaseIdent (cs : List Char) : Bool :=
  alphanumericIdent cs || numericIdent cs

/-- semver build identifier: alphanumeric, or digits with leading zeros
allowed; together, any non-empty run of identifier characters -/
def buildIdent (cs : List Char) : Bool :=
  !cs.isEmpty && cs.all isSemverIdentChar

/-- a non-empty dot-separated sequence whose components all satisfy
`identOk` -/
def dotSeparated (identOk : List Char → Bool) (cs : List Char) : Bool :=
  (cs.splitOn '.').all identOk

/-- semver version core: `major.minor.patch`, three numeric identifiers -/
def versionCore (cs : List Char) : Bool :=
  match cs.splitOn '.' with
  | [major, minor, patch] => numericIdent major && numericIdent minor && numericIdent patch
  | _ => false

/-- splits a list at the first occurrence of `sep`, returning the parts
before and after it, or `none` when `sep` does not occur -/
def splitFirst (sep : Char) : List Char → Option (List Char × List Char)
  | [] => none
  | c :: cs =>
    if c = sep then some ([], cs)
    else
      match splitFirst sep cs with
      | some (l, r) => some (c :: l, r)
      | none => none

/-- Modelled from the spec: the `valid` function of the external `semver` npm
package (a dependency whose sources are not part of this repository), which
the specification describes as "a standard semver-compliant library ...
treated as a black box satisfying the semver 2.0 grammar".  `semverValid s`
holds exactly when `s` is `core`, `core-prerelease`, `core+build` or
`core-prerelease+build` per that grammar.  The version core contains neither
`-` nor `+` and no identifier contains `+`, so in a valid string the build
part starts at the first `+` and the pre-release part at the first `-` before
it; splitting there decides the grammar. -/
def semverValid (s : String) : Bool :=
  let cs := s.data
  match splitFirst '+' cs with
  | some (mainPart, buildPart) =>
    (match splitFirst '-' mainPart with
     | some (core, pre) => versionCore core && dotSeparated preReleaseIdent pre
     | none => versionCore mainPart)
    && dotSeparated buildIdent buildPart
  | none =>
    match splitFirst '-' cs with
    | some (core, pre) => versionCore core && dotSeparated preReleaseIdent pre
    | none => versionCore cs

/-- `VersionStruct = refine(string(), 'Version', (value) => validSemver(value) !== null)`:
a string accepted by the semver validator; any non-string fails the base
`string()` struct. -/
def VersionStruct (v : Value) : Bool :=
  match v with
  | .str s => semverValid s
  | _ => false

/-! ### The package-name validator

`NameStruct = size(pattern(string(), /^(?:@[a-z0-9-*~][a-z0-9-*._~]*\/)?[a-z0-9-~][a-z0-9-._~]*$/u), 1, 214)`.
In each character class the `-` after the `0-9` range and the other
punctuation are literals, so the classes are the sets written out below. -/

/-- first character of the scope segment, class `[a-z0-9-*~]` -/
def scopeFirstChar (c : Char) : Bool :=
  ('a' ≤ c && c ≤ 'z') || ('0' ≤ c && c ≤ '9') || c == '-' || c == '*' || c == '~'

/-- continuation character of the scope segment, class `[a-z0-9-*._~]` -/
def scopeRestChar (c : Char) : Bool :=
  ('a' ≤ c && c ≤ 'z') || ('0' ≤ c && c ≤ '9') || c == '-' || c == '*' || c == '.'
    || c == '_' || c == '~'

/-- first character of the name segment, class `[a-z0-9-~]` -/
def nameFirstChar (c : Char) : Bool :=
  ('a' ≤ c && c ≤ 'z') || ('0' ≤ c && c ≤ '9') || c == '-' || c == '~'

/-- continuation character of the name segment, class `[a-z0-9-._~]` -/
def nameRestChar (c : Char) : Bool :=
  ('a' ≤ c && c ≤ 'z') || ('0' ≤ c && c ≤ '9') || c == '-' || c == '.'
    || c == '_' || c == '~'

/-- a segment of the name pattern: one `first` character followed by any
number of `rest` characters -/
def segMatch (first rest : Char → Bool) : List Char → Bool
  | [] => false
  | c :: cs => first c && cs.all rest

/-- Anchored match of the name regex on the character list.  `/` belongs to
no character class and `@` is not a name-segment character, so a match takes
the optional scope branch exactly when the string starts with `@`, and the
literal `/` closing the scope is then the first `/` of the string; splitting
there decides the regex language. -/
def namePatternMatchAux : List Char → Bool
  | [] => false
  | c :: rest =>
    if c = '@' then
      match splitFirst '/' rest with
      | some (scope, name) =>
        segMatch scopeFirstChar scopeRestChar scope
          && segMatch nameFirstChar nameRestChar name
      | none => false
    else segMatch nameFirstChar nameRestChar (c :: rest)

/-- Anchored match of the name regex against a string. -/
def namePatternMatch (s : String) : Bool :=
  namePatternMatchAux s.data

/-- `NameStruct`: the pattern together with the `size(_, 1, 214)` length
refinement on the JavaScript string length.  All grammar characters are
ASCII, so UTF-16 code-unit length and character count agree on any string
the pattern accepts. -/
def NameStruct (v : Value) : Bool :=
  match v with
  | .str s => namePatternMatch s && decide (1 ≤ s.length) && decide (s.length ≤ 214)
  | _ => false

/-! ### The package-metadata validator -/

/-- a required entry of a struct schema: an absent field fails -/
def requiredField (check : Value → Bool) : Option Value → Bool
  | some x => check x
  | none => false

/-- an `optional(...)` entry of a struct schema: an absent field passes -/
def optionalField (check : Value → Bool) : Option Value → Bool
  | some x => check x
  | none => true

/-- `size(string(), 1, Infinity)`: a non-empty string -/
def nonEmptyStringStruct (v : Value) : Bool :=
  match v with
  | .str s => decide (1 ≤ s.length)
  | _ => false

/-- the `repository` schema
`object({ type: size(string(), 1, Infinity), url: size(string(), 1, Infinity) })`:
superstruct's `object` is closed, so any key other than `type` and `url`
fails validation. -/
def repositoryStruct (v : Value) : Bool :=
  match v with
  | .obj fields =>
    requiredField nonEmptyStringStruct (getField fields "type")
      && requiredField nonEmptyStringStruct (getField fields "url")
      && fields.all (fun p => p.1 == "type" || p.1 == "url")
  | _ => false

/-- `NpmSnapPackageJsonStruct = type({ version, name, main?, repository? })`:
superstruct's `type` (unlike `object`) permits unknown keys, so only the four
declared entries are checked.  A JavaScript array passes the `typeof`
object check of `type` but has none of the required string-keyed fields, so
it fails the `version` entry; it is mapped to `false` directly here. -/
def NpmSnapPackageJsonStruct (v : Value) : Bool :=
  match v with
  | .obj fields =>
    requiredField VersionStruct (getField fields "version")
      && requiredField NameStruct (getField fields "name")
      && optionalField nonEmptyStringStruct (getField fields "main")
      && optionalField repositoryStruct (getField fields "repository")
  | .arr _ => false
  | _ => false

/-- `isNpmSnapPackageJson(value) = is(value, NpmSnapPackageJsonStruct)`:
the boolean predicate path, which never throws. -/
def isNpmSnapPackageJson (v : Value) : Bool :=
  NpmSnapPackageJsonStruct v

/-! ### Enums and the assertion -/

/-- the `NpmSnapFileNames` string enum -/
inductive NpmSnapFileNames where
  | PackageJson
  | Manifest

/-- the string value of each `NpmSnapFileNames` member -/
def NpmSnapFileNames.val : NpmSnapFileNames → String
  | .PackageJson => "package.json"
  | .Manifest => "snap.manifest.json"

/-- the `SnapIdPrefixes` string enum -/
inductive SnapIdPrefixes where
  | npm
  | «local»

/-- the string value of each `SnapIdPrefixes` member -/
def SnapIdPrefixes.val : SnapIdPrefixes → String
  | .npm => "npm:"
  | .«local» => "local:"

/-- Modelled from the spec: `assertStruct` of the external `@metamask/utils`
package (a dependency whose sources are not part of this repository).  Per
the specification it validates the value against the struct and, on failure,
"fails with an error carrying the fixed message ... plus the underlying
structural failure detail"; the detail text is abstracted here as a fixed
suffix.  On success it returns normally with no side effect. -/
def assertStruct (check : Value → Bool) (errorMessage : String) (v : Value) :
    Except String Unit :=
  if check v then Except.ok ()
  else Except.error (errorMessage ++ ": validation failure.")

/-- `assertIsNpmSnapPackageJson`: asserts the metadata struct with the error
message built from the `NpmSnapFileNames.PackageJson` constant. -/
def assertIsNpmSnapPackageJson (v : Value) : Except String Unit :=
  assertStruct NpmSnapPackageJsonStruct
    ("\"" ++ NpmSnapFileNames.PackageJson.val ++ "\" is invalid") v

/-! ### Helper lemmas -/

/-- `splitFirst` decomposes its input around the separator. -/
theorem splitFirst_eq {sep : Char} :
    ∀ {l a b : List Char}, splitFirst sep l = some (a, b) → l = a ++ sep :: b := by
  intro l
  induction l with
  | nil => intro a b h; simp [splitFirst] at h
  | cons c cs ih =>
    intro a b h
    by_cases hc : c = sep
    · subst hc
      simp [splitFirst] at h
      obtain ⟨rfl, rfl⟩ := h
      rfl
    · simp only [splitFirst, if_neg hc] at h
      cases hsp : splitFirst sep cs with
      | none => rw [hsp] at h; cases h
      | some p =>
        obtain ⟨l', r'⟩ := p
        rw [hsp] at h
        simp only [Option.some.injEq, Prod.mk.injEq] at h
        obtain ⟨rfl, rfl⟩ := h
        simp [ih hsp]

/-- A name segment accepted by the pattern never contains `*`. -/
theorem segMatch_no_star {seg : List Char}
    (h : segMatch nameFirstChar nameRestChar seg = true) : '*' ∉ seg := by
  cases seg with
  | nil => simp
  | cons c cs =>
    simp only [segMatch, Bool.and_eq_true, List.all_eq_true] at h
    obtain ⟨h1, h2⟩ := h
    intro hmem
    rcases List.mem_cons.mp hmem with rfl | hmem
    · exact absurd h1 (by decide)
    · have := h2 _ hmem
      exact absurd this (by decide)

/-- A required field validates exactly when it is present and valid. -/
theorem requiredField_eq_true {check : Value → Bool} {o : Option Value} :
    requiredField check o = true ↔ ∃ x, o = some x ∧ check x = true := by
  cases o <;> simp [requiredField]

/-- An optional field validates exactly when it is valid whenever present. -/
theorem optionalField_eq_true {check : Value → Bool} {o : Option Value} :
    optionalField check o = true ↔ ∀ x, o = some x → check x = true := by
  cases o <;> simp [optionalField]

/-- Appending a binding for a different key does not change a lookup. -/
theorem getField_append_single {fields : List (String × Value)} {k key : String}
    {x : Value} (h : k ≠ key) :
    getField (fields ++ [(k, x)]) key = getField fields key := by
  induction fields with
  | nil => simp [getField, h]
  | cons p rest ih =>
    obtain ⟨k', v'⟩ := p
    by_cases hk : k' = key <;> simp [getField, hk, ih]

/-- The string of 215 letters `a`: pattern-valid but over the length bound. -/
def allA215 : String := String.mk (List.replicate 215 'a')

/-! ### The claims -/

/-- C1: membership in `VersionStruct` holds exactly for strings accepted by
the semver validator; `"1.0.0"` is accepted, `"1.0"`, `"v1.0.0"` and `""` are
rejected, and every non-string value is rejected (the predicate is total, so
no malformed input raises an exception). -/
theorem C1_version_struct_semantics :
    (∀ s : String, VersionStruct (Value.str s) = semverValid s)
    ∧ VersionStruct (Value.str "1.0.0") = true
    ∧ VersionStruct (Value.str "1.0") = false
    ∧ VersionStruct (Value.str "v1.0.0") = false
    ∧ VersionStruct (Value.str "") = false
    ∧ (∀ v : Value, (∀ s : String, v ≠ Value.str s) → VersionStruct v = false) := by
  refine ⟨fun s => rfl, by decide, by decide, by decide, by decide, ?_⟩
  intro v hv
  cases v with
  | str s => exact absurd rfl (hv s)
  | num n => rfl
  | bool b => rfl
  | null => rfl
  | arr l => rfl
  | obj fields => rfl

/-- C1 witness: the version struct rejects the concrete non-string `7`. -/
theorem C1_version_struct_semantics_witness :
    VersionStruct (Value.num 7) = false :=
  C1_version_struct_semantics.2.2.2.2.2 (Value.num 7) (fun _ h => Value.noConfusion h)

set_option maxRecDepth 4000 in
/-- C2: membership in `NameStruct` holds exactly for strings matching the
name pattern with length between 1 and 214; `"my-snap"` and
`"@scope/my-snap"` are accepted; `"My-Snap"` (uppercase) and `""` are
rejected; 215 letters `a` match the pattern but are rejected by the length
bound; non-strings are rejected. -/
theorem C2_name_struct_semantics :
    (∀ s : String, NameStruct (Value.str s) =
      (namePatternMatch s && decide (1 ≤ s.length) && decide (s.length ≤ 214)))
    ∧ NameStruct (Value.str "my-snap") = true
    ∧ NameStruct (Value.str "@scope/my-snap") = true
    ∧ NameStruct (Value.str "My-Snap") = false
    ∧ NameStruct (Value.str "") = false
    ∧ namePatternMatch allA215 = true
    ∧ NameStruct (Value.str allA215) = false
    ∧ (∀ v : Value, (∀ s : String, v ≠ Value.str s) → NameStruct v = false) := by
  refine ⟨fun s => rfl, by decide, by decide, by decide, by decide, ?_, ?_, ?_⟩
  · show (namePatternMatch allA215 = true)
    decide
  · show (NameStruct (Value.str allA215) = false)
    decide
  intro v hv
  cases v with
  | str s => exact absurd rfl (hv s)
  | num n => rfl
  | bool b => rfl
  | null => rfl
  | arr l => rfl
  | obj fields => rfl

/-- C2 witness: the name struct rejects the concrete non-string `true`. -/
theorem C2_name_struct_semantics_witness :
    NameStruct (Value.bool true) = false :=
  C2_name_struct_semantics.2.2.2.2.2.2.2 (Value.bool true) (fun _ h => Value.noConfusion h)

/-- C3 counterexample: `"@a*/b"` is accepted by `NameStruct` although its `*`
sits at index 2 — the second character of the scope segment, not the first
character after the `@` (index 1 holds `a`).  `*` is therefore not restricted
to the scope segment's first character position, refuting the claim as
stated. -/
theorem C3_star_counterexample :
    NameStruct (Value.str "@a*/b") = true
    ∧ "@a*/b".data.get? 2 = some '*'
    ∧ "@a*/b".data.get? 1 = some 'a' := by
  refine ⟨by decide, by decide, by decide⟩

/-- C3 amended: `*` is permitted anywhere in the scope segment — first or
continuation position — and nowhere in the name segment: every accepted name
containing `*` starts with `@` and splits as `@scope/name` where the scope
and name segments match their classes and the name segment contains no `*`,
so every `*` lies strictly between the `@` and the `/`. -/
theorem C3_star_only_in_scope (s : String)
    (hacc : NameStruct (Value.str s) = true) (hstar : '*' ∈ s.data) :
    ∃ scope name, s.data = '@' :: (scope ++ '/' :: name)
      ∧ segMatch scopeFirstChar scopeRestChar scope = true
      ∧ segMatch nameFirstChar nameRestChar name = true
      ∧ '*' ∉ name := by
  have hm : namePatternMatch s = true := by
    simp only [NameStruct, Bool.and_eq_true] at hacc
    exact hacc.1.1
  rw [namePatternMatch] at hm
  cases hd : s.data with
  | nil => rw [hd] at hm; exact Bool.noConfusion hm
  | cons c rest =>
    rw [hd] at hm
    rw [hd] at hstar
    simp only [namePatternMatchAux] at hm
    split at hm
    · rename_i hc
      subst hc
      cases hsp : splitFirst '/' rest with
      | none => rw [hsp] at hm; exact Bool.noConfusion hm
      | some p =>
        obtain ⟨scope, name⟩ := p
        simp only [hsp, Bool.and_eq_true] at hm
        refine ⟨scope, name, ?_, hm.1, hm.2, segMatch_no_star hm.2⟩
        rw [splitFirst_eq hsp]
    · exact absurd hstar (segMatch_no_star hm)

/-- C3 amended witness: applied to the accepted name `"@a*c/b"`, which
carries a `*` in a scope continuation position. -/
theorem C3_star_only_in_scope_witness :
    ∃ scope name, "@a*c/b".data = '@' :: (scope ++ '/' :: name)
      ∧ segMatch scopeFirstChar scopeRestChar scope = true
      ∧ segMatch nameFirstChar nameRestChar name = true
      ∧ '*' ∉ name :=
  C3_star_only_in_scope "@a*c/b" (by decide) (by decide)

/-- C4: `isNpmSnapPackageJson` accepts exactly the objects whose `version`
and `name` fields validate, whose `main` field (if present) is a non-empty
string and whose `repository` field (if present) validates; unknown
top-level keys never change the verdict; with the concrete examples from the
spec: a minimal valid object, the same plus an extra key (still valid), a
missing `name`, an empty `main` and a `repository` missing `url` (each
invalid). -/
theorem C4_package_json_semantics :
    isNpmSnapPackageJson (Value.obj [("version", Value.str "1.2.3"), ("name", Value.str "a")]) = true
    ∧ isNpmSnapPackageJson (Value.obj [("version", Value.str "1.2.3"), ("name", Value.str "a"),
        ("extra", Value.num 1)]) = true
    ∧ isNpmSnapPackageJson (Value.obj [("version", Value.str "1.2.3")]) = false
    ∧ isNpmSnapPackageJson (Value.obj [("version", Value.str "1.2.3"), ("name", Value.str "a"),
        ("main", Value.str "")]) = false
    ∧ isNpmSnapPackageJson (Value.obj [("version", Value.str "1.2.3"), ("name", Value.str "a"),
        ("repository", Value.obj [("type", Value.str "git")])]) = false
    ∧ (∀ fields : List (String × Value),
        isNpmSnapPackageJson (Value.obj fields) = true ↔
          ((∃ x, getField fields "version" = some x ∧ VersionStruct x = true)
            ∧ (∃ x, getField fields "name" = some x ∧ NameStruct x = true)
            ∧ (∀ x, getField fields "main" = some x → nonEmptyStringStruct x = true)
            ∧ (∀ x, getField fields "repository" = some x → repositoryStruct x = true)))
    ∧ (∀ (fields : List (String × Value)) (k : String) (x : Value),
        k ≠ "version" → k ≠ "name" → k ≠ "main" → k ≠ "repository" →
          isNpmSnapPackageJson (Value.obj (fields ++ [(k, x)])) =
            isNpmSnapPackageJson (Value.obj fields)) := by
  refine ⟨by decide, by decide, by decide, by decide, by decide, ?_, ?_⟩
  · intro fields
    simp only [isNpmSnapPackageJson, NpmSnapPackageJsonStruct, Bool.and_eq_true,
      requiredField_eq_true, optionalField_eq_true, and_assoc]
  · intro fields k x h1 h2 h3 h4
    simp only [isNpmSnapPackageJson, NpmSnapPackageJsonStruct,
      getField_append_single h1, getField_append_single h2,
      getField_append_single h3, getField_append_single h4]

/-- C4 witness: appending the unknown key `homepage` leaves the verdict of a
valid metadata object unchanged. -/
theorem C4_package_json_semantics_witness :
    isNpmSnapPackageJson (Value.obj ([("version", Value.str "1.2.3"), ("name", Value.str "a")]
        ++ [("homepage", Value.str "x")]))
      = isNpmSnapPackageJson (Value.obj [("version", Value.str "1.2.3"), ("name", Value.str "a")]) :=
  C4_package_json_semantics.2.2.2.2.2.2 [("version", Value.str "1.2.3"), ("name", Value.str "a")]
    "homepage" (Value.str "x") (by decide) (by decide) (by decide) (by decide)

/-- C5: the assertion returns normally exactly on values satisfying the
metadata predicate, and on any other value fails with an error whose message
starts with the quoted file name followed by "is invalid", built from the
`NpmSnapFileNames.PackageJson` constant. -/
theorem C5_assert_behavior :
    (∀ v : Value, isNpmSnapPackageJson v = true → assertIsNpmSnapPackageJson v = Except.ok ())
    ∧ (∀ v : Value, isNpmSnapPackageJson v = false →
        ∃ rest : String, assertIsNpmSnapPackageJson v =
          Except.error ("\"" ++ NpmSnapFileNames.PackageJson.val ++ "\" is invalid" ++ rest)) := by
  constructor
  · intro v h
    simp only [isNpmSnapPackageJson] at h
    simp [assertIsNpmSnapPackageJson, assertStruct, h]
  · intro v h
    simp only [isNpmSnapPackageJson] at h
    refine ⟨": validation failure.", ?_⟩
    simp only [assertIsNpmSnapPackageJson, assertStruct, h]
    rw [if_neg (by simp)]

/-- C5 witness: the assertion succeeds on a concrete valid object and fails
on `null` with the specified message prefix. -/
theorem C5_assert_behavior_witness :
    assertIsNpmSnapPackageJson (Value.obj [("version", Value.str "1.2.3"),
        ("name", Value.str "a")]) = Except.ok ()
    ∧ ∃ rest : String, assertIsNpmSnapPackageJson Value.null =
        Except.error ("\"" ++ NpmSnapFileNames.PackageJson.val ++ "\" is invalid" ++ rest) :=
  ⟨C5_assert_behavior.1 (Value.obj [("version", Value.str "1.2.3"), ("name", Value.str "a")])
      (by decide),
    C5_assert_behavior.2 Value.null (by decide)⟩

/-- C6: the predicates are total boolean functions: every value of any shape
gets a verdict, every non-object is mapped to `false`, and so are concrete
malformed inputs of each kind (wrong type, wrong field type, array). -/
theorem C6_predicates_total :
    (∀ v : Value, isNpmSnapPackageJson v = true ∨ isNpmSnapPackageJson v = false)
    ∧ (∀ v : Value, (∀ fields, v ≠ Value.obj fields) → isNpmSnapPackageJson v = false)
    ∧ isNpmSnapPackageJson (Value.str "not an object") = false
    ∧ isNpmSnapPackageJson Value.null = false
    ∧ isNpmSnapPackageJson (Value.bool true) = false
    ∧ isNpmSnapPackageJson (Value.arr [Value.str "1.0.0"]) = false
    ∧ isNpmSnapPackageJson (Value.obj [("version", Value.num 1), ("name", Value.str "a")]) = false
    ∧ isNpmSnapPackageJson (Value.obj [("version", Value.str "1.2.3"), ("name", Value.str "a"),
        ("main", Value.num 3)]) = false
    ∧ VersionStruct (Value.bool false) = false
    ∧ NameStruct (Value.num 0) = false := by
  refine ⟨?_, ?_, by decide, by decide, by decide, by decide, by decide, by decide, by decide,
    by decide⟩
  · intro v
    cases h : isNpmSnapPackageJson v
    · exact Or.inr rfl
    · exact Or.inl rfl
  · intro v hv
    cases v with
    | obj fields => exact absurd rfl (hv fields)
    | str s => rfl
    | num n => rfl
    | bool b => rfl
    | null => rfl
    | arr l => rfl

/-- C6 witness: the predicate maps the concrete non-object `42` to `false`. -/
theorem C6_predicates_total_witness :
    isNpmSnapPackageJson (Value.num 42) = false :=
  C6_predicates_total.2.1 (Value.num 42) (fun _ h => Value.noConfusion h)

/-- C7: determinism — in this embedding every predicate is a pure function of
its argument, with no hidden state, so two invocations on the same value
yield the same boolean. -/
theorem C7_predicates_deterministic :
    ∀ v : Value,
      (isNpmSnapPackageJson v = isNpmSnapPackageJson v)
      ∧ (VersionStruct v = VersionStruct v)
      ∧ (NameStruct v = NameStruct v)
      ∧ (∀ w : Value, v = w → isNpmSnapPackageJson v = isNpmSnapPackageJson w) :=
  fun _ => ⟨rfl, rfl, rfl, fun _ h => h ▸ rfl⟩

/-- C7 witness: two invocations on the value `null` agree. -/
theorem C7_predicates_deterministic_witness :
    isNpmSnapPackageJson Value.null = isNpmSnapPackageJson Value.null :=
  (C7_predicates_deterministic Value.null).2.2.2 Value.null rfl

/-- C8: the enum members carry exactly the literal strings of the source:
`package.json`, `snap.manifest.json`, `npm:` and `local:`. -/
theorem C8_enum_string_values :
    NpmSnapFileNames.PackageJson.val = "package.json"
    ∧ NpmSnapFileNames.Manifest.val = "snap.manifest.json"
    ∧ SnapIdPrefixes.npm.val = "npm:"
    ∧ SnapIdPrefixes.«local».val = "local:" :=
  ⟨rfl, rfl, rfl, rfl⟩

/-- C9: the nested `repository` object is closed: a binding with any key
other than `type` and `url` makes the repository struct fail, a failing
`repository` field makes the whole metadata object fail, and concretely an
otherwise fully valid object is rejected once `directory` is added inside
`repository` (and accepted without it). -/
theorem C9_repository_closed :
    (∀ (rfields : List (String × Value)) (k : String) (x : Value),
        (k, x) ∈ rfields → k ≠ "type" → k ≠ "url" →
          repositoryStruct (Value.obj rfields) = false)
    ∧ (∀ (fields rfields : List (String × Value)),
        getField fields "repository" = some (Value.obj rfields) →
        repositoryStruct (Value.obj rfields) = false →
          isNpmSnapPackageJson (Value.obj fields) = false)
    ∧ isNpmSnapPackageJson (Value.obj [("version", Value.str "1.2.3"), ("name", Value.str "a"),
        ("repository", Value.obj [("type", Value.str "git"),
          ("url", Value.str "https://github.com/a/b"),
          ("directory", Value.str "packages/a")])]) = false
    ∧ isNpmSnapPackageJson (Value.obj [("version", Value.str "1.2.3"), ("name", Value.str "a"),
        ("repository", Value.obj [("type", Value.str "git"),
          ("url", Value.str "https://github.com/a/b")])]) = true := by
  refine ⟨?_, ?_, by decide, by decide⟩
  · intro rfields k x hmem hk1 hk2
    simp only [repositoryStruct]
    have hall : rfields.all (fun p => p.1 == "type" || p.1 == "url") = false := by
      rw [Bool.eq_false_iff]
      intro hall
      rw [List.all_eq_true] at hall
      have hkx := hall (k, x) hmem
      simp only [Bool.or_eq_true, beq_iff_eq] at hkx
      rcases hkx with h | h
      · exact hk1 h
      · exact hk2 h
    rw [hall]
    simp
  · intro fields rfields hget hfail
    simp only [isNpmSnapPackageJson, NpmSnapPackageJsonStruct, hget, optionalField, hfail]
    simp

/-- C9 witness: a repository object carrying the extra key `directory` fails
the closed repository struct. -/
theorem C9_repository_closed_witness :
    repositoryStruct (Value.obj [("type", Value.str "git"), ("url", Value.str "u"),
      ("directory", Value.str "d")]) = false :=
  C9_repository_closed.1
    [("type", Value.str "git"), ("url", Value.str "u"), ("directory", Value.str "d")]
    "directory" (Value.str "d")
    (List.mem_cons_of_mem _ (List.mem_cons_of_mem _ (List.mem_cons_self _ _)))
    (by decide) (by decide)

/-- C10: the assertion fails exactly when the predicate returns `false` —
both paths are driven by the same `NpmSnapPackageJsonStruct`. -/
theorem C10_assert_iff_predicate :
    ∀ v : Value,
      (∃ m, assertIsNpmSnapPackageJson v = Except.error m) ↔ isNpmSnapPackageJson v = false := by
  intro v
  simp only [assertIsNpmSnapPackageJson, assertStruct, isNpmSnapPackageJson]
  cases h : NpmSnapPackageJsonStruct v
  · simp
  · simp

/-- C10 witness: instantiated at the invalid value `null`. -/
theorem C10_assert_iff_predicate_witness :
    (∃ m, assertIsNpmSnapPackageJson Value.null = Except.error m)
      ↔ isNpmSnapPackageJson Value.null = false :=
  C10_assert_iff_predicate Value.null
